import Mathlib

/-!
# NeoSerial tool: connection lifecycle and session log

A shallow embedding of `MainWindow` (src/mainwindow.cpp, src/mainwindow.h).
Every slot of the window becomes a pure function from the window state and the
answers of the outside world (the result of `QSerialPort::open`, the count
returned by `QSerialPort::write`, the bytes returned by `readAll`, the reading
of the system clock, the answer of the save dialog) to the next window state
and the list of effects the slot performed, in program order.

Text is `String` (a `QString` holding well-formed Unicode), a byte array is a
list of naturals below 256.
-/

namespace NeoSerial

/-! ## Qt values used by the window -/

/-- The three `QMessageBox` kinds the window uses. -/
inductive Icon where
  | information
  | warning
  | critical
  deriving DecidableEq, Repr

/-- What a slot does to the outside world, in the order the code does it. -/
inductive Effect where
  /-- A blocking `QMessageBox::information / warning / critical`. -/
  | messageBox (icon : Icon) (title text : String)
  /-- The call `serial->open(QIODevice::ReadWrite)` and what it returned. -/
  | serialOpen (portName : String) (baudRate : Int) (ok : Bool)
  /-- The call `serial->close()`. -/
  | serialClose
  /-- The call `serial->write(bytes)` and the count it returned. -/
  | serialWrite (bytes : List Nat) (returned : Int)
  /-- The call `QFileDialog::getSaveFileName` and the name it returned. -/
  | saveFileDialog (chosen : String)
  /-- The call `file.open(QIODevice::WriteOnly)` and what it returned. -/
  | fileOpen (fileName : String) (ok : Bool)
  /-- Text streamed into the open file. -/
  | fileWrite (fileName : String) (text : String)
  /-- The call `file.close()`. -/
  | fileClose (fileName : String)
  deriving DecidableEq, Repr

/-- The part of `QSerialPort` the window touches. -/
structure QSerialPort where
  portName : String
  baudRate : Int
  isOpen : Bool
  deriving DecidableEq, Repr

/-- The widgets of `Ui::MainWindow` that the slots read or write. -/
structure Ui where
  /-- Current text of the port combo box. -/
  cb_port : String
  /-- Current text of the baud rate combo box. -/
  cb_baudrate : String
  /-- Text of the connect button. -/
  btn_connect : String
  /-- Style sheet of the indicator. -/
  indicator : String
  /-- Content of the send line edit. -/
  txt_send : String
  /-- Paragraphs of the receive view. -/
  txt_receive : List String
  deriving DecidableEq, Repr

/-- The private members of `MainWindow` (mainwindow.h, lines 39-42). -/
structure MainWindow where
  ui : Ui
  serial : QSerialPort
  connected : Bool
  dataLog : List (List String)
  deriving DecidableEq, Repr

/-! ## Text: whitespace, trimming, decimal numbers, UTF-8 -/

/-- Model of `QChar::isSpace`: U+0020, U+0009..U+000D, U+0085, U+00A0 and the
characters of the Unicode separator categories Zs, Zl and Zp. -/
def isSpace (c : Char) : Bool :=
  let u := c.toNat
  u == 0x20 || (0x09 ≤ u && u ≤ 0x0D) || u == 0x85 || u == 0xA0 || u == 0x1680 ||
    (0x2000 ≤ u && u ≤ 0x200A) || u == 0x2028 || u == 0x2029 || u == 0x202F ||
    u == 0x205F || u == 0x3000

/-- Model of `QString::trimmed`: the text without the whitespace at its start
and at its end. -/
def trimmed (s : String) : String :=
  ⟨(s.data.dropWhile isSpace).rdropWhile isSpace⟩

/-- Value of a run of decimal digits read left to right from `acc`, or `none`
at the first character that is not a digit. -/
def digitsValue : List Char → Nat → Option Nat
  | [], acc => some acc
  | c :: cs, acc =>
    if 48 ≤ c.toNat ∧ c.toNat ≤ 57 then digitsValue cs (acc * 10 + (c.toNat - 48)) else none

/-- Model of `QString::toInt`: surrounding whitespace is skipped, an optional
sign and at least one decimal digit are read; the result is 0 when the text is
not of that form or the value is not a 32-bit integer. -/
def toInt (s : String) : Int :=
  let body : Option (Bool × List Char) :=
    match (trimmed s).data with
    | [] => none
    | c :: cs =>
      if c = '-' then some (true, cs) else if c = '+' then some (false, cs) else some (false, c :: cs)
  match body with
  | none => 0
  | some (_, []) => 0
  | some (neg, d :: ds) =>
    match digitsValue (d :: ds) 0 with
    | none => 0
    | some n =>
      let v : Int := if neg then -(n : Int) else (n : Int)
      if -2147483648 ≤ v ∧ v ≤ 2147483647 then v else 0

/-- The UTF-8 encoding of one character, as byte values. -/
def utf8EncodeChar (c : Char) : List Nat :=
  let v := c.toNat
  if v < 0x80 then [v]
  else if v < 0x800 then [0xC0 + v / 64, 0x80 + v % 64]
  else if v < 0x10000 then [0xE0 + v / 4096, 0x80 + v / 64 % 64, 0x80 + v % 64]
  else [0xF0 + v / 262144, 0x80 + v / 4096 % 64, 0x80 + v / 64 % 64, 0x80 + v % 64]

/-- Model of `QString::toUtf8`. -/
def toUtf8 (s : String) : List Nat :=
  s.data.flatMap utf8EncodeChar

/-- A UTF-8 continuation byte, `10xxxxxx`. -/
def isContinuationByte (b : Nat) : Bool :=
  0x80 ≤ b && b < 0xC0

/-- U+FFFD, written for every byte that does not start a well-formed sequence. -/
def replacementCharacter : Char := Char.ofNat 0xFFFD

/-- The character with code `uc` when `uc` is at least `minUc` (not an overlong
form), not a surrogate and at most U+10FFFF. -/
def checkedChar (minUc uc : Nat) : Option Char :=
  if uc < minUc then none
  else if 0xD800 ≤ uc ∧ uc ≤ 0xDFFF then none
  else if 0x10FFFF < uc then none
  else some (Char.ofNat uc)

/-- One decoding step at lead byte `b` with the bytes `rest` after it: the
decoded character and the number of bytes of `rest` it consumed, or `none` when
the sequence is malformed or cut short. -/
def decodeOne (b : Nat) (rest : List Nat) : Option (Char × Nat) :=
  if b < 0x80 then some (Char.ofNat b, 0)
  else if b < 0xC2 then none
  else if b < 0xE0 then
    match rest with
    | b1 :: _ =>
      if isContinuationByte b1 then
        (checkedChar 0x80 (b % 32 * 64 + b1 % 64)).map (fun c => (c, 1))
      else none
    | _ => none
  else if b < 0xF0 then
    match rest with
    | b1 :: b2 :: _ =>
      if isContinuationByte b1 && isContinuationByte b2 then
        (checkedChar 0x800 ((b % 16 * 64 + b1 % 64) * 64 + b2 % 64)).map (fun c => (c, 2))
      else none
    | _ => none
  else if b < 0xF5 then
    match rest with
    | b1 :: b2 :: b3 :: _ =>
      if isContinuationByte b1 && isContinuationByte b2 && isContinuationByte b3 then
        (checkedChar 0x10000 (((b % 8 * 64 + b1 % 64) * 64 + b2 % 64) * 64 + b3 % 64)).map
          (fun c => (c, 3))
      else none
    | _ => none
  else none

/-- The decoding loop: `skip` bytes still belong to the sequence decoded last;
a malformed lead byte gives U+FFFD and decoding resumes at the next byte. -/
def decodeFrom : Nat → List Nat → List Char
  | _, [] => []
  | skip + 1, _ :: rest => decodeFrom skip rest
  | 0, b :: rest =>
    match decodeOne b rest with
    | some (c, n) => c :: decodeFrom n rest
    | none => replacementCharacter :: decodeFrom 0 rest

/-- Model of `QString::fromUtf8` on a byte array: a byte order mark at the very
start is dropped, well-formed sequences give their character, every other lead
byte gives U+FFFD. -/
def fromUtf8 (data : List Nat) : String :=
  match data with
  | 0xEF :: 0xBB :: 0xBF :: rest => ⟨decodeFrom 0 rest⟩
  | _ => ⟨decodeFrom 0 data⟩

/-! ## Date and time -/

/-- A reading of the system wall clock: local calendar date, time of day and
the microseconds elapsed within the current second. -/
structure WallClock where
  year : Nat
  month : Nat
  day : Nat
  hour : Nat
  minute : Nat
  second : Nat
  usec : Nat
  deriving DecidableEq, Repr

/-- A `QDateTime`: calendar date and time of day in whole milliseconds. -/
structure QDateTime where
  year : Nat
  month : Nat
  day : Nat
  hour : Nat
  minute : Nat
  second : Nat
  msec : Nat
  deriving DecidableEq, Repr

/-- Model of `QDateTime::currentDateTime`: the clock reading in whole milliseconds. -/
def currentDateTime (clock : WallClock) : QDateTime :=
  { year := clock.year, month := clock.month, day := clock.day,
    hour := clock.hour, minute := clock.minute, second := clock.second,
    msec := clock.usec / 1000 }

/-- A clock reading that is a calendar date of the years 0 to 9999 and a time
of day. -/
def WallClock.valid (c : WallClock) : Bool :=
  decide (c.year ≤ 9999) && decide (1 ≤ c.month) && decide (c.month ≤ 12) &&
    decide (1 ≤ c.day) && decide (c.day ≤ 31) && decide (c.hour < 24) &&
    decide (c.minute < 60) && decide (c.second < 60) && decide (c.usec < 1000000)

/-- Microseconds elapsed since midnight at a clock reading. -/
def WallClock.usecOfDay (c : WallClock) : Nat :=
  ((c.hour * 60 + c.minute) * 60 + c.second) * 1000000 + c.usec

/-- Two clock readings taken on the same calendar day. -/
def WallClock.sameDay (a b : WallClock) : Bool :=
  decide (a.year = b.year) && decide (a.month = b.month) && decide (a.day = b.day)

/-- The decimal digit character of `n % 10`. -/
def digitChar (n : Nat) : Char := Char.ofNat (48 + n % 10)

/-- A number as at least `width` decimal digits, padded with zeros on the left. -/
def zeroPad : Nat → Nat → List Char
  | 0, n => if n = 0 then [] else Nat.toDigits 10 n
  | width + 1, n =>
    if n < 10 ^ (width + 1) then zeroPad width (n / 10) ++ [digitChar n] else Nat.toDigits 10 n

/-- Model of `QDateTime::toString("yyyy-MM-dd HH:mm:ss.zzz")`. -/
def QDateTime.toString (t : QDateTime) : String :=
  ⟨zeroPad 4 t.year ++ ['-'] ++ zeroPad 2 t.month ++ ['-'] ++ zeroPad 2 t.day ++ [' '] ++
    zeroPad 2 t.hour ++ [':'] ++ zeroPad 2 t.minute ++ [':'] ++ zeroPad 2 t.second ++ ['.'] ++
    zeroPad 3 t.msec⟩

/-! ## The session log -/

/-- `MainWindow::logData` (mainwindow.cpp, lines 115-122): a three-field entry
(time stamp, type, data) is appended to `dataLog`. -/
def logData (clock : WallClock) (type data : String) (w : MainWindow) : MainWindow :=
  let entry : List String := [(currentDateTime clock).toString, type, data]
  { w with dataLog := w.dataLog ++ [entry] }

/-- `MainWindow::readData` (mainwindow.cpp, lines 104-113); `data` is what
`serial->readAll()` returns. -/
def readData (data : List Nat) (clock : WallClock) (w : MainWindow) :
    MainWindow × List Effect :=
  let received := trimmed (fromUtf8 data)
  if !received.isEmpty then
    let w1 : MainWindow :=
      { w with ui := { w.ui with txt_receive := w.ui.txt_receive ++ ["RECV: " ++ received] } }
    (logData clock "RECEIVED" received w1, [])
  else
    (w, [])

/-- `MainWindow::on_btn_send_clicked` (mainwindow.cpp, lines 156-170);
`returned` is the count `serial->write` returns (negative on error). -/
def on_btn_send_clicked (returned : Int) (clock : WallClock) (w : MainWindow) :
    MainWindow × List Effect :=
  if !w.connected then
    (w, [Effect.messageBox Icon.warning "Warning" "Not connected to any device!"])
  else
    let data := w.ui.txt_send ++ "\n"
    if returned > 0 then
      let w1 := logData clock "SENT" w.ui.txt_send w
      ({ w1 with ui := { w1.ui with txt_send := "" } },
        [Effect.serialWrite (toUtf8 data) returned])
    else
      (w, [Effect.serialWrite (toUtf8 data) returned,
           Effect.messageBox Icon.critical "Error" "Failed to send data"])

/-- `MainWindow::on_btn_clear_clicked` (mainwindow.cpp, lines 173-177). -/
def on_btn_clear_clicked (w : MainWindow) : MainWindow × List Effect :=
  ({ w with ui := { w.ui with txt_receive := [] }, dataLog := [] }, [])

/-- Model of `QStringList::join(',')`. -/
def join (entry : List String) : String :=
  String.intercalate "," entry

/-- The text the loop of `on_btn_save_csv_clicked` streams into the file
(mainwindow.cpp, lines 194-197): the header, then for every entry in turn its
joined fields and a newline. -/
def streamText (dataLog : List (List String)) : String :=
  dataLog.foldl (fun stream entry => (stream ++ join entry).push '\n') "Timestamp,Type,Data\n"

/-- `MainWindow::on_btn_save_csv_clicked` (mainwindow.cpp, lines 180-204);
`fileName` is the answer of the save dialog (empty when it is cancelled) and
`openOk` the result of `file.open`. Both are only consulted on the branches
that make these calls. -/
def on_btn_save_csv_clicked (fileName : String) (openOk : Bool) (w : MainWindow) :
    MainWindow × List Effect :=
  if w.dataLog.isEmpty then
    (w, [Effect.messageBox Icon.warning "Warning" "No data to save!"])
  else if !fileName.isEmpty then
    if openOk then
      (w, [Effect.saveFileDialog fileName, Effect.fileOpen fileName true,
           Effect.fileWrite fileName (streamText w.dataLog), Effect.fileClose fileName,
           Effect.messageBox Icon.information "Success" "Data saved successfully"])
    else
      (w, [Effect.saveFileDialog fileName, Effect.fileOpen fileName false,
           Effect.messageBox Icon.critical "Error" "Failed to save file"])
  else
    (w, [Effect.saveFileDialog fileName])

/-! ## The connect button -/

/-- `MainWindow::updateIndicator` (mainwindow.cpp, lines 206-221). -/
def updateIndicator (w : MainWindow) : MainWindow :=
  if w.connected then
    { w with ui := { w.ui with indicator :=
        "background-color: #00ff00;" ++ "border-radius: 10px;" ++ "border: 2px solid #00ff00;" } }
  else
    { w with ui := { w.ui with indicator :=
        "background-color: red;" ++ "border-radius: 10px;" ++ "border: 2px solid #2a2a4a;" } }

/-- `MainWindow::on_btn_connect_clicked` (mainwindow.cpp, lines 131-153).
`openError` is the outcome of `serial->open`: `none` when it returns true,
`some e` when it returns false and `serial->errorString()` is `e`. It is only
consulted on the branch that calls `open`. -/
def on_btn_connect_clicked (openError : Option String) (w : MainWindow) :
    MainWindow × List Effect :=
  if !w.connected then
    let port : QSerialPort :=
      { w.serial with portName := w.ui.cb_port, baudRate := toInt w.ui.cb_baudrate }
    match openError with
    | none =>
      let w1 : MainWindow :=
        { w with serial := { port with isOpen := true }, connected := true,
                 ui := { w.ui with btn_connect := "Disconnect" } }
      (updateIndicator w1,
        [Effect.serialOpen port.portName port.baudRate true,
         Effect.messageBox Icon.information "Connected"
           ("Successfully connected to " ++ port.portName)])
    | some e =>
      ({ w with serial := port },
        [Effect.serialOpen port.portName port.baudRate false,
         Effect.messageBox Icon.critical "Error" e])
  else
    let w1 : MainWindow :=
      { w with serial := { w.serial with isOpen := false }, connected := false,
               ui := { w.ui with btn_connect := "Connect" } }
    (updateIndicator w1,
      [Effect.serialClose,
       Effect.messageBox Icon.information "Disconnected" "Connection closed"])

/-- The window right after construction: `connected = false` (mainwindow.h,
line 41), a closed port, an empty log, baud rate text "115200" (mainwindow.cpp,
line 80) and the port box filled by `updatePorts` with the enumerated ports,
showing the first of them. The texts that come from the form file are
arguments. -/
def MainWindow.init (ports : List String) (btnText indicatorStyle : String) : MainWindow :=
  { ui := { cb_port := ports.headD "", cb_baudrate := "115200", btn_connect := btnText,
            indicator := indicatorStyle, txt_send := "", txt_receive := [] },
    serial := { portName := "", baudRate := 9600, isOpen := false },
    connected := false,
    dataLog := [] }

/-- The connection state of the specification, read off the `connected` flag. -/
inductive ConnectionState where
  | Disconnected
  | Connected
  deriving DecidableEq, Repr

/-- The state the `connected` flag stands for. -/
def MainWindow.state (w : MainWindow) : ConnectionState :=
  if w.connected then ConnectionState.Connected else ConnectionState.Disconnected

/-- An effect that is a state transition of the port: an `open` that returned
true, or a `close`. A failed `open` is no transition. -/
def Effect.isTransition : Effect → Bool
  | Effect.serialOpen _ _ ok => ok
  | Effect.serialClose => true
  | _ => false

/-- An `open` that returned true. -/
def Effect.isConnect : Effect → Bool
  | Effect.serialOpen _ _ ok => ok
  | _ => false

/-- Run a sequence of clicks on the connect button, one `open` outcome per
click; returns the final window and all effects performed, in order. -/
def clickConnectMany : List (Option String) → MainWindow → MainWindow × List Effect
  | [], w => (w, [])
  | o :: os, w =>
    let r := on_btn_connect_clicked o w
    let r2 := clickConnectMany os r.1
    (r2.1, r.2 ++ r2.2)

/-! ## Sequences of events -/

/-- The events that reach the log, with the answers of the outside world. -/
inductive Event where
  /-- A click on the send button with text `text` in the line edit. -/
  | send (text : String) (returned : Int) (clock : WallClock)
  /-- A `readyRead` notification delivering `data`. -/
  | incoming (data : List Nat) (clock : WallClock)
  deriving DecidableEq, Repr

/-- The user types `text` into the send line edit. -/
def typeText (text : String) (w : MainWindow) : MainWindow :=
  { w with ui := { w.ui with txt_send := text } }

/-- Handle one event: the text is typed into the line edit and the button is
clicked, or `readData` runs on the chunk. -/
def handle (e : Event) (w : MainWindow) : MainWindow :=
  match e with
  | Event.send text returned clock => (on_btn_send_clicked returned clock (typeText text w)).1
  | Event.incoming data clock => (readData data clock w).1

/-- Handle a sequence of events in order. -/
def handleAll (es : List Event) (w : MainWindow) : MainWindow :=
  es.foldl (fun acc e => handle e acc) w

/-- An event that is to be logged in a connected window: a send whose write
returned a positive count, or a chunk that is not empty after trimming. -/
def Event.logged : Event → Bool
  | Event.send _ returned _ => decide (returned > 0)
  | Event.incoming data _ => !(trimmed (fromUtf8 data)).isEmpty

/-- The line of the exported file for an event that was logged: time stamp,
the type the code logs it with, and the text, joined by commas. -/
def Event.csvRow : Event → String
  | Event.send text _ clock => (currentDateTime clock).toString ++ ",SENT," ++ text ++ "\n"
  | Event.incoming data clock =>
    (currentDateTime clock).toString ++ ",RECEIVED," ++ trimmed (fromUtf8 data) ++ "\n"

/-- The window after one successful connect to "COM3" at 115200 baud. -/
def connectedWindow : MainWindow :=
  (on_btn_connect_clicked none (MainWindow.init ["COM3"] "Connect" "")).1

/-- The log entry an event is recorded as. -/
def Event.entry : Event → List String
  | Event.send text _ clock => [(currentDateTime clock).toString, "SENT", text]
  | Event.incoming data clock =>
    [(currentDateTime clock).toString, "RECEIVED", trimmed (fromUtf8 data)]

/-! ## The connect button: proofs -/

theorem state_connected_iff (w : MainWindow) :
    w.state = ConnectionState.Connected ↔ w.connected = true := by
  unfold MainWindow.state
  cases w.connected <;> simp

theorem state_disconnected_iff (w : MainWindow) :
    w.state = ConnectionState.Disconnected ↔ w.connected = false := by
  unfold MainWindow.state
  cases w.connected <;> simp

theorem updateIndicator_connected (w : MainWindow) :
    (updateIndicator w).connected = w.connected := by
  unfold updateIndicator
  split <;> rfl

theorem updateIndicator_serial (w : MainWindow) :
    (updateIndicator w).serial = w.serial := by
  unfold updateIndicator
  split <;> rfl

theorem updateIndicator_dataLog (w : MainWindow) :
    (updateIndicator w).dataLog = w.dataLog := by
  unfold updateIndicator
  split <;> rfl

/-- The flag after one click and the transition among its effects: a click
that performs a transition sets the flag to whether it was a connect, a click
that performs none leaves the flag. -/
theorem click_connected (o : Option String) (w : MainWindow) :
    (on_btn_connect_clicked o w).1.connected =
      match ((on_btn_connect_clicked o w).2.filter Effect.isTransition).getLast? with
      | some e => e.isConnect
      | none => w.connected := by
  unfold on_btn_connect_clicked
  cases hc : w.connected <;> cases o <;>
    simp [updateIndicator_connected, hc, List.filter_cons, Effect.isTransition, Effect.isConnect]

/-- The flag after a sequence of clicks from any window. -/
theorem clickConnectMany_connected (os : List (Option String)) (w : MainWindow) :
    (clickConnectMany os w).1.connected =
      match ((clickConnectMany os w).2.filter Effect.isTransition).getLast? with
      | some e => e.isConnect
      | none => w.connected := by
  induction os generalizing w with
  | nil => simp [clickConnectMany]
  | cons o os ih =>
    simp only [clickConnectMany, List.filter_append, List.getLast?_append]
    rw [ih]
    cases hl : ((clickConnectMany os (on_btn_connect_clicked o w).1).2.filter
        Effect.isTransition).getLast? with
    | some t => simp
    | none =>
      simp only [Option.none_or]
      exact click_connected o w

/-- A click keeps the port open exactly when the flag is set. -/
theorem click_isOpen (o : Option String) (w : MainWindow)
    (h : w.serial.isOpen = w.connected) :
    (on_btn_connect_clicked o w).1.serial.isOpen = (on_btn_connect_clicked o w).1.connected := by
  unfold on_btn_connect_clicked
  cases hc : w.connected <;> cases o <;>
    simp [updateIndicator_connected, updateIndicator_serial, hc, h]

/-- After a sequence of clicks the port is open exactly when the flag is set. -/
theorem clickConnectMany_isOpen (os : List (Option String)) (w : MainWindow)
    (h : w.serial.isOpen = w.connected) :
    (clickConnectMany os w).1.serial.isOpen = (clickConnectMany os w).1.connected := by
  induction os generalizing w with
  | nil => exact h
  | cons o os ih =>
    simp only [clickConnectMany]
    exact ih _ (click_isOpen o w h)

/-- C1: starting from the freshly constructed window (`connected = false`),
after any finite sequence of clicks on the connect button, whatever `open`
answers at each click, the state is Connected exactly when the last transition
that took place (an `open` that succeeded, or a `close`) was a connect, and the
port is open exactly when the state is Connected; and a click in a Disconnected
window whose `open` fails leaves the window Disconnected with the port closed
as before and reports the error. -/
theorem C1_connected_iff_last_transition_is_connect
    (ports : List String) (btnText indicatorStyle : String) (outcomes : List (Option String)) :
    ((clickConnectMany outcomes (MainWindow.init ports btnText indicatorStyle)).1.state =
        ConnectionState.Connected ↔
      ∃ e, ((clickConnectMany outcomes (MainWindow.init ports btnText indicatorStyle)).2.filter
        Effect.isTransition).getLast? = some e ∧ e.isConnect = true) ∧
    ((clickConnectMany outcomes (MainWindow.init ports btnText indicatorStyle)).1.serial.isOpen =
      (clickConnectMany outcomes (MainWindow.init ports btnText indicatorStyle)).1.connected) ∧
    (∀ (e : String) (w : MainWindow), w.state = ConnectionState.Disconnected →
      (on_btn_connect_clicked (some e) w).1.state = ConnectionState.Disconnected ∧
      (on_btn_connect_clicked (some e) w).1.serial.isOpen = w.serial.isOpen ∧
      (on_btn_connect_clicked (some e) w).1.dataLog = w.dataLog ∧
      Effect.messageBox Icon.critical "Error" e ∈ (on_btn_connect_clicked (some e) w).2) := by
  refine ⟨?_, clickConnectMany_isOpen outcomes _ rfl, ?_⟩
  · rw [state_connected_iff, clickConnectMany_connected]
    cases ((clickConnectMany outcomes (MainWindow.init ports btnText indicatorStyle)).2.filter
        Effect.isTransition).getLast? with
    | some t => simp
    | none => simp [MainWindow.init]
  · intro e w hw
    rw [state_disconnected_iff] at hw
    rw [state_disconnected_iff]
    simp [on_btn_connect_clicked, hw]

/-- C1 at a concrete run: connect, disconnect, two failed connects, connect. -/
theorem C1_connected_iff_last_transition_is_connect_witness :
    (clickConnectMany [none, none, some "busy", some "denied", none]
        (MainWindow.init ["COM3"] "Connect" "")).1.state = ConnectionState.Connected ∧
    (on_btn_connect_clicked (some "busy") (MainWindow.init ["COM3"] "Connect" "")).1.state =
      ConnectionState.Disconnected :=
  ⟨((C1_connected_iff_last_transition_is_connect ["COM3"] "Connect" ""
      [none, none, some "busy", some "denied", none]).1).2
      ⟨Effect.serialOpen "COM3" 115200 true, by decide, by decide⟩,
   ((C1_connected_iff_last_transition_is_connect ["COM3"] "Connect" "" []).2.2 "busy"
      (MainWindow.init ["COM3"] "Connect" "") (by decide)).1⟩

/-- C2, as stated, fails: in a Connected window a further click on the connect
button does not report an error and does not stay Connected; it closes the
port, reports "Connection closed" and the window is Disconnected. -/
theorem C2_counterexample :
    (on_btn_connect_clicked none (MainWindow.init ["COM3"] "Connect" "")).1.state =
      ConnectionState.Connected ∧
    (on_btn_connect_clicked none
      (on_btn_connect_clicked none (MainWindow.init ["COM3"] "Connect" "")).1).1.state =
      ConnectionState.Disconnected ∧
    (on_btn_connect_clicked none
      (on_btn_connect_clicked none (MainWindow.init ["COM3"] "Connect" "")).1).2 =
      [Effect.serialClose,
       Effect.messageBox Icon.information "Disconnected" "Connection closed"] := by
  decide

/-- C2, amended: in every Connected window a further click on the connect
button is handled as a disconnect: `open` is not called, the port is closed,
the window becomes Disconnected, the log is untouched and the only message is
the information "Connection closed". -/
theorem C2_click_when_connected_disconnects (o : Option String) (w : MainWindow)
    (hw : w.state = ConnectionState.Connected) :
    (on_btn_connect_clicked o w).1.state = ConnectionState.Disconnected ∧
    (on_btn_connect_clicked o w).1.serial.isOpen = false ∧
    (on_btn_connect_clicked o w).1.dataLog = w.dataLog ∧
    (on_btn_connect_clicked o w).2 =
      [Effect.serialClose,
       Effect.messageBox Icon.information "Disconnected" "Connection closed"] := by
  rw [state_connected_iff] at hw
  rw [state_disconnected_iff]
  simp [on_btn_connect_clicked, hw, updateIndicator_connected, updateIndicator_serial,
    updateIndicator_dataLog]

/-- C2 amended, at the window reached by one successful connect. -/
theorem C2_click_when_connected_disconnects_witness :
    (on_btn_connect_clicked none
      (on_btn_connect_clicked none (MainWindow.init ["COM3"] "Connect" "")).1).1.state =
      ConnectionState.Disconnected :=
  (C2_click_when_connected_disconnects none
    (on_btn_connect_clicked none (MainWindow.init ["COM3"] "Connect" "")).1 (by decide)).1

/-! ## Sending and receiving: proofs -/

theorem toUtf8_append (s t : String) : toUtf8 (s ++ t) = toUtf8 s ++ toUtf8 t := by
  simp [toUtf8, String.data_append, List.flatMap_append]

theorem toUtf8_newline : toUtf8 "\n" = [10] := by decide

theorem logData_dataLog (clock : WallClock) (type data : String) (w : MainWindow) :
    (logData clock type data w).dataLog =
      w.dataLog ++ [[(currentDateTime clock).toString, type, data]] := rfl

theorem logData_connected (clock : WallClock) (type data : String) (w : MainWindow) :
    (logData clock type data w).connected = w.connected := rfl

theorem logData_serial (clock : WallClock) (type data : String) (w : MainWindow) :
    (logData clock type data w).serial = w.serial := rfl

theorem isEmpty_eq_false_iff (s : String) : s.isEmpty = false ↔ s ≠ "" := by
  rw [ne_eq, ← String.isEmpty_iff]
  cases s.isEmpty <;> simp

/-- C3: in every Disconnected window, whatever the log and the text in the
line edit, a click on send only shows the warning "Not connected to any
device!": `write` is not called, the window (log, flag, port, line edit) is the
same afterwards; on a freshly constructed window the log stays empty. -/
theorem C3_send_when_disconnected_is_rejected
    (returned : Int) (clock : WallClock) (w : MainWindow)
    (hw : w.state = ConnectionState.Disconnected) :
    on_btn_send_clicked returned clock w =
      (w, [Effect.messageBox Icon.warning "Warning" "Not connected to any device!"]) ∧
    (∀ bytes n, Effect.serialWrite bytes n ∉ (on_btn_send_clicked returned clock w).2) ∧
    (on_btn_send_clicked returned clock w).1.dataLog = w.dataLog ∧
    (on_btn_send_clicked returned clock w).1.state = ConnectionState.Disconnected ∧
    (∀ (ports : List String) (btnText indicatorStyle text : String),
      (on_btn_send_clicked returned clock
        (typeText text (MainWindow.init ports btnText indicatorStyle))).1.dataLog = []) := by
  have hc : w.connected = false := (state_disconnected_iff w).1 hw
  have h : on_btn_send_clicked returned clock w =
      (w, [Effect.messageBox Icon.warning "Warning" "Not connected to any device!"]) := by
    simp [on_btn_send_clicked, hc]
  refine ⟨h, ?_, ?_, ?_, ?_⟩
  · intro bytes n
    rw [h]
    simp
  · rw [h]
  · rw [h]
    exact hw
  · intro ports btnText indicatorStyle text
    simp [on_btn_send_clicked, MainWindow.init, typeText]

/-- C3 on the freshly constructed window with "PING" typed in. -/
theorem C3_send_when_disconnected_is_rejected_witness :
    (on_btn_send_clicked 5 ⟨2024, 1, 2, 3, 4, 5, 123456⟩
      (typeText "PING" (MainWindow.init ["COM3"] "Connect" ""))).1.dataLog = [] :=
  (C3_send_when_disconnected_is_rejected 5 ⟨2024, 1, 2, 3, 4, 5, 123456⟩
    (typeText "PING" (MainWindow.init ["COM3"] "Connect" "")) (by decide)).2.2.1

/-- The result of a click on send in a Connected window when `write` returned
a positive count. -/
theorem send_accepted (returned : Int) (clock : WallClock) (w : MainWindow)
    (hc : w.connected = true) (hr : 0 < returned) :
    on_btn_send_clicked returned clock w =
      ({ logData clock "SENT" w.ui.txt_send w with
          ui := { (logData clock "SENT" w.ui.txt_send w).ui with txt_send := "" } },
        [Effect.serialWrite (toUtf8 w.ui.txt_send ++ [10]) returned]) := by
  simp [on_btn_send_clicked, hc, hr, toUtf8_append, toUtf8_newline]

/-- The result of a click on send in a Connected window when `write` returned
zero or a negative count. -/
theorem send_refused (returned : Int) (clock : WallClock) (w : MainWindow)
    (hc : w.connected = true) (hr : returned ≤ 0) :
    on_btn_send_clicked returned clock w =
      (w, [Effect.serialWrite (toUtf8 w.ui.txt_send ++ [10]) returned,
           Effect.messageBox Icon.critical "Error" "Failed to send data"]) := by
  have hr2 : ¬ 0 < returned := not_lt.mpr hr
  simp [on_btn_send_clicked, hc, hr2, toUtf8_append, toUtf8_newline]

/-- The result of `readData` on a chunk that is not empty after trimming. -/
theorem readData_logged (data : List Nat) (clock : WallClock) (w : MainWindow)
    (h : trimmed (fromUtf8 data) ≠ "") :
    readData data clock w =
      (logData clock "RECEIVED" (trimmed (fromUtf8 data))
        { w with ui := { w.ui with
            txt_receive := w.ui.txt_receive ++ ["RECV: " ++ trimmed (fromUtf8 data)] } }, []) := by
  have h2 : (trimmed (fromUtf8 data)).isEmpty = false := (isEmpty_eq_false_iff _).2 h
  simp [readData, h2]

/-- The result of `readData` on a chunk that is empty after trimming. -/
theorem readData_ignored (data : List Nat) (clock : WallClock) (w : MainWindow)
    (h : trimmed (fromUtf8 data) = "") :
    readData data clock w = (w, []) := by
  have h2 : (trimmed (fromUtf8 data)).isEmpty = true := by rw [h]; decide
  simp [readData, h2]

/-- C4, as stated, fails: with "PING" typed in a Connected window the five
bytes `PING\n` are submitted; when `write` reports that only one of them was
accepted, no error is shown and a SENT entry is appended to the log. -/
theorem C4_counterexample :
    (typeText "PING" connectedWindow).state = ConnectionState.Connected ∧
    (toUtf8 ((typeText "PING" connectedWindow).ui.txt_send ++ "\n")).length = 5 ∧
    (on_btn_send_clicked 1 ⟨2024, 1, 2, 3, 4, 5, 123456⟩
      (typeText "PING" connectedWindow)).2 = [Effect.serialWrite [80, 73, 78, 71, 10] 1] ∧
    (typeText "PING" connectedWindow).dataLog = [] ∧
    (on_btn_send_clicked 1 ⟨2024, 1, 2, 3, 4, 5, 123456⟩
      (typeText "PING" connectedWindow)).1.dataLog =
        [["2024-01-02 03:04:05.123", "SENT", "PING"]] := by
  decide

/-- C4, amended: in every Connected window a click on send submits to `write`
the UTF-8 bytes of the text followed by the newline byte; when `write` returns
zero or a negative count the error "Failed to send data" is shown and the
window (log, port, flag, text) is unchanged; when `write` returns any positive
count, also one smaller than the number of bytes submitted, exactly one entry
of type SENT carrying the text is appended and no error is shown. -/
theorem C4_send_when_connected (returned : Int) (clock : WallClock) (w : MainWindow)
    (hw : w.state = ConnectionState.Connected) :
    (on_btn_send_clicked returned clock w).2.head? =
      some (Effect.serialWrite (toUtf8 w.ui.txt_send ++ [10]) returned) ∧
    (returned ≤ 0 →
      (on_btn_send_clicked returned clock w).1 = w ∧
      (on_btn_send_clicked returned clock w).2 =
        [Effect.serialWrite (toUtf8 w.ui.txt_send ++ [10]) returned,
         Effect.messageBox Icon.critical "Error" "Failed to send data"]) ∧
    (0 < returned →
      (on_btn_send_clicked returned clock w).1.dataLog =
        w.dataLog ++ [[(currentDateTime clock).toString, "SENT", w.ui.txt_send]] ∧
      (on_btn_send_clicked returned clock w).1.connected = w.connected ∧
      (on_btn_send_clicked returned clock w).1.serial = w.serial ∧
      (on_btn_send_clicked returned clock w).2 =
        [Effect.serialWrite (toUtf8 w.ui.txt_send ++ [10]) returned]) := by
  have hc : w.connected = true := (state_connected_iff w).1 hw
  refine ⟨?_, ?_, ?_⟩
  · rcases lt_or_le 0 returned with hr | hr
    · rw [send_accepted returned clock w hc hr]
      rfl
    · rw [send_refused returned clock w hc hr]
      rfl
  · intro hr
    rw [send_refused returned clock w hc hr]
    exact ⟨rfl, rfl⟩
  · intro hr
    rw [send_accepted returned clock w hc hr]
    exact ⟨rfl, rfl, rfl, rfl⟩

/-- C4 amended, at "PING" typed in a Connected window, for a refused write and
for a write that accepted one byte of five. -/
theorem C4_send_when_connected_witness :
    (on_btn_send_clicked (-1) ⟨2024, 1, 2, 3, 4, 5, 123456⟩
      (typeText "PING" connectedWindow)).1 = typeText "PING" connectedWindow ∧
    (on_btn_send_clicked 1 ⟨2024, 1, 2, 3, 4, 5, 123456⟩
      (typeText "PING" connectedWindow)).1.dataLog =
        (typeText "PING" connectedWindow).dataLog ++
          [[(currentDateTime ⟨2024, 1, 2, 3, 4, 5, 123456⟩).toString, "SENT",
            (typeText "PING" connectedWindow).ui.txt_send]] :=
  ⟨((C4_send_when_connected (-1) ⟨2024, 1, 2, 3, 4, 5, 123456⟩
      (typeText "PING" connectedWindow) (by decide)).2.1 (by decide)).1,
   ((C4_send_when_connected 1 ⟨2024, 1, 2, 3, 4, 5, 123456⟩
      (typeText "PING" connectedWindow) (by decide)).2.2 (by decide)).1⟩

/-! ## The log grows by appending -/

theorem handle_connected (e : Event) (w : MainWindow) :
    (handle e w).connected = w.connected := by
  cases e with
  | send text returned clock =>
    simp only [handle, on_btn_send_clicked]
    split
    · rfl
    · split <;> rfl
  | incoming data clock =>
    simp only [handle, readData]
    split <;> rfl

/-- What one event does to the log of a Connected window. -/
theorem handle_dataLog (e : Event) (w : MainWindow) (hc : w.connected = true) :
    (handle e w).dataLog = w.dataLog ++ (if e.logged then [e.entry] else []) := by
  cases e with
  | send text returned clock =>
    have hc2 : (typeText text w).connected = true := hc
    rcases lt_or_le 0 returned with hr | hr
    · simp only [handle, send_accepted returned clock _ hc2 hr, Event.logged, Event.entry]
      simp [hr, logData_dataLog, typeText]
    · simp only [handle, send_refused returned clock _ hc2 hr, Event.logged, Event.entry]
      simp [not_lt.mpr hr, typeText]
  | incoming data clock =>
    by_cases h : trimmed (fromUtf8 data) = ""
    · have h2 : (trimmed (fromUtf8 data)).isEmpty = true := by rw [h]; decide
      simp only [handle, readData_ignored data clock w h, Event.logged, Event.entry]
      simp [h2]
    · simp only [handle, readData_logged data clock w h, Event.logged, Event.entry]
      simp [logData_dataLog, (isEmpty_eq_false_iff _).2 h]

/-- The log after a sequence of events in a Connected window: the entries of
the logged events, in order, after the entries that were there. -/
theorem handleAll_dataLog (es : List Event) (w : MainWindow) (hc : w.connected = true) :
    (handleAll es w).dataLog = w.dataLog ++ (es.filter Event.logged).map Event.entry := by
  induction es generalizing w with
  | nil => simp [handleAll]
  | cons e es ih =>
    have hc2 : (handle e w).connected = true := by rw [handle_connected]; exact hc
    have h := ih (handle e w) hc2
    simp only [handleAll, List.foldl_cons] at h ⊢
    rw [h, handle_dataLog e w hc]
    cases hl : e.logged <;> simp [List.filter_cons, hl]

/-- C5: for every log, a click on send in a Connected window whose write
returned a positive count, and a received chunk that is not empty after
trimming, each turn the log `L` into `L` followed by exactly one new entry
(one entry longer, the new entry last, the first entries those of `L` in the
same order); hence after any sequence of such events the log is what it was,
followed by one entry per event in the order of the events. -/
theorem C5_one_entry_per_event_in_order :
    (∀ (returned : Int) (clock : WallClock) (w : MainWindow),
      w.state = ConnectionState.Connected → 0 < returned →
      (on_btn_send_clicked returned clock w).1.dataLog =
          w.dataLog ++ [[(currentDateTime clock).toString, "SENT", w.ui.txt_send]] ∧
        (on_btn_send_clicked returned clock w).1.dataLog.length = w.dataLog.length + 1 ∧
        (on_btn_send_clicked returned clock w).1.dataLog.take w.dataLog.length = w.dataLog) ∧
    (∀ (data : List Nat) (clock : WallClock) (w : MainWindow),
      trimmed (fromUtf8 data) ≠ "" →
      (readData data clock w).1.dataLog =
          w.dataLog ++ [[(currentDateTime clock).toString, "RECEIVED", trimmed (fromUtf8 data)]] ∧
        (readData data clock w).1.dataLog.length = w.dataLog.length + 1 ∧
        (readData data clock w).1.dataLog.take w.dataLog.length = w.dataLog) ∧
    (∀ (es : List Event) (w : MainWindow),
      w.state = ConnectionState.Connected → (∀ e ∈ es, e.logged = true) →
      (handleAll es w).dataLog = w.dataLog ++ es.map Event.entry ∧
        (handleAll es w).dataLog.length = w.dataLog.length + es.length) := by
  refine ⟨?_, ?_, ?_⟩
  · intro returned clock w hw hr
    have hc : w.connected = true := (state_connected_iff w).1 hw
    have h : (on_btn_send_clicked returned clock w).1.dataLog =
        w.dataLog ++ [[(currentDateTime clock).toString, "SENT", w.ui.txt_send]] := by
      rw [send_accepted returned clock w hc hr]
      rfl
    rw [h]
    simp
  · intro data clock w hd
    have h : (readData data clock w).1.dataLog =
        w.dataLog ++ [[(currentDateTime clock).toString, "RECEIVED", trimmed (fromUtf8 data)]] := by
      rw [readData_logged data clock w hd]
      rfl
    rw [h]
    simp
  · intro es w hw hall
    have hc : w.connected = true := (state_connected_iff w).1 hw
    have hf : es.filter Event.logged = es := List.filter_eq_self.2 hall
    have h : (handleAll es w).dataLog = w.dataLog ++ es.map Event.entry := by
      rw [handleAll_dataLog es w hc, hf]
    rw [h]
    simp

/-- C5 at the scenario of the specification: "PING" is sent, then " PONG" and
a line end arrive. -/
theorem C5_one_entry_per_event_in_order_witness :
    (handleAll [Event.send "PING" 5 ⟨2024, 1, 2, 3, 4, 5, 123456⟩,
        Event.incoming [32, 80, 79, 78, 71, 13, 10] ⟨2024, 1, 2, 3, 4, 6, 500000⟩]
      connectedWindow).dataLog =
      connectedWindow.dataLog ++
        [Event.send "PING" 5 ⟨2024, 1, 2, 3, 4, 5, 123456⟩,
         Event.incoming [32, 80, 79, 78, 71, 13, 10] ⟨2024, 1, 2, 3, 4, 6, 500000⟩].map
          Event.entry :=
  ((C5_one_entry_per_event_in_order.2.2
    [Event.send "PING" 5 ⟨2024, 1, 2, 3, 4, 5, 123456⟩,
     Event.incoming [32, 80, 79, 78, 71, 13, 10] ⟨2024, 1, 2, 3, 4, 6, 500000⟩]
    connectedWindow (by decide) (by decide))).1

/-- C10: in every window a click on clear shows no message and performs no
other effect, leaves the log with no entry, and leaves the `connected` flag and
the port (name, baud rate, open or closed) as they were. -/
theorem C10_clear_empties_log_only (w : MainWindow) :
    (on_btn_clear_clicked w).2 = [] ∧
    (on_btn_clear_clicked w).1.dataLog = [] ∧
    (on_btn_clear_clicked w).1.dataLog.length = 0 ∧
    (on_btn_clear_clicked w).1.connected = w.connected ∧
    (on_btn_clear_clicked w).1.state = w.state ∧
    (on_btn_clear_clicked w).1.serial = w.serial :=
  ⟨rfl, rfl, rfl, rfl, rfl, rfl⟩

/-! ## Export -/

theorem join_three (t type data : String) :
    join [t, type, data] = t ++ "," ++ type ++ "," ++ data := by
  simp [join, String.intercalate, String.intercalate.go]

theorem foldl_stream (dataLog : List (List String)) (stream : String) :
    dataLog.foldl (fun stream entry => (stream ++ join entry).push '\n') stream =
      stream ++ String.join (dataLog.map (fun entry => join entry ++ "\n")) := by
  induction dataLog generalizing stream with
  | nil =>
    apply String.ext
    simp
  | cons entry rest ih =>
    rw [List.foldl_cons, ih]
    apply String.ext
    simp

/-- The streamed text: the header, then one line per entry. -/
theorem streamText_eq (dataLog : List (List String)) :
    streamText dataLog =
      "Timestamp,Type,Data\n" ++ String.join (dataLog.map (fun entry => join entry ++ "\n")) :=
  foldl_stream dataLog _

/-- C6: with an empty log a click on save only shows the warning "No data to
save!": the dialog is not shown, no file is opened and nothing is written;
with a log of n >= 1 three-field entries, a chosen file name and a successful
`open`, the text written to that file is exactly the header line
`Timestamp,Type,Data` followed by n lines in log order, line i being the three
fields of entry i joined by commas, unquoted, and ended by a newline. The log
is made of three-field entries because `logData` appends one to such a log. -/
theorem C6_export_csv :
    (∀ (fileName : String) (openOk : Bool) (w : MainWindow), w.dataLog = [] →
      on_btn_save_csv_clicked fileName openOk w =
          (w, [Effect.messageBox Icon.warning "Warning" "No data to save!"]) ∧
        (∀ name ok, Effect.fileOpen name ok ∉ (on_btn_save_csv_clicked fileName openOk w).2) ∧
        (∀ name text,
          Effect.fileWrite name text ∉ (on_btn_save_csv_clicked fileName openOk w).2)) ∧
    (∀ (fileName : String) (w : MainWindow) (rows : List (String × String × String)),
      rows ≠ [] → w.dataLog = rows.map (fun r => [r.1, r.2.1, r.2.2]) → fileName ≠ "" →
      on_btn_save_csv_clicked fileName true w =
        (w, [Effect.saveFileDialog fileName, Effect.fileOpen fileName true,
             Effect.fileWrite fileName
               ("Timestamp,Type,Data\n" ++
                 String.join (rows.map (fun r => r.1 ++ "," ++ r.2.1 ++ "," ++ r.2.2 ++ "\n"))),
             Effect.fileClose fileName,
             Effect.messageBox Icon.information "Success" "Data saved successfully"])) ∧
    (∀ (clock : WallClock) (type data : String) (w : MainWindow)
        (rows : List (String × String × String)),
      w.dataLog = rows.map (fun r => [r.1, r.2.1, r.2.2]) →
      (logData clock type data w).dataLog =
        (rows ++ [((currentDateTime clock).toString, type, data)]).map
          (fun r => [r.1, r.2.1, r.2.2])) := by
  refine ⟨?_, ?_, ?_⟩
  · intro fileName openOk w hw
    have h : on_btn_save_csv_clicked fileName openOk w =
        (w, [Effect.messageBox Icon.warning "Warning" "No data to save!"]) := by
      simp [on_btn_save_csv_clicked, hw]
    rw [h]
    simp
  · intro fileName w rows hrows hw hf
    have hne : w.dataLog.isEmpty = false := by
      rw [hw]
      cases rows with
      | nil => exact absurd rfl hrows
      | cons r rs => rfl
    have hfe : fileName.isEmpty = false := (isEmpty_eq_false_iff _).2 hf
    have htext : streamText w.dataLog = "Timestamp,Type,Data\n" ++
        String.join (rows.map (fun r => r.1 ++ "," ++ r.2.1 ++ "," ++ r.2.2 ++ "\n")) := by
      rw [streamText_eq, hw, List.map_map]
      rfl
    simp [on_btn_save_csv_clicked, hne, hfe, htext]
  · intro clock type data w rows hw
    rw [logData_dataLog, hw]
    simp

/-- C6 on a log of two entries, one of them with a comma in its text. -/
theorem C6_export_csv_witness :
    on_btn_save_csv_clicked "out.csv" true
        { connectedWindow with dataLog := [["t1", "SENT", "a,b"], ["t2", "RECEIVED", "c"]] } =
      ({ connectedWindow with dataLog := [["t1", "SENT", "a,b"], ["t2", "RECEIVED", "c"]] },
        [Effect.saveFileDialog "out.csv", Effect.fileOpen "out.csv" true,
         Effect.fileWrite "out.csv"
           ("Timestamp,Type,Data\n" ++
             String.join ([("t1", "SENT", "a,b"), ("t2", "RECEIVED", "c")].map
               (fun r => r.1 ++ "," ++ r.2.1 ++ "," ++ r.2.2 ++ "\n"))),
         Effect.fileClose "out.csv",
         Effect.messageBox Icon.information "Success" "Data saved successfully"]) :=
  C6_export_csv.2.1 "out.csv"
    { connectedWindow with dataLog := [["t1", "SENT", "a,b"], ["t2", "RECEIVED", "c"]] }
    [("t1", "SENT", "a,b"), ("t2", "RECEIVED", "c")] (by decide) rfl (by decide)

/-- C7, as stated, fails: after "PING" is sent and "PONG" is received in a
Connected window the log holds the types SENT and RECEIVED, and the text
written by the export is not the one with `Sent` and `Received`. -/
theorem C7_counterexample :
    (handleAll [Event.send "PING" 5 ⟨2024, 1, 2, 3, 4, 5, 123456⟩,
        Event.incoming [80, 79, 78, 71] ⟨2024, 1, 2, 3, 4, 6, 500000⟩]
      connectedWindow).dataLog =
      [["2024-01-02 03:04:05.123", "SENT", "PING"],
       ["2024-01-02 03:04:06.500", "RECEIVED", "PONG"]] ∧
    Effect.fileWrite "out.csv"
        "Timestamp,Type,Data\n2024-01-02 03:04:05.123,SENT,PING\n2024-01-02 03:04:06.500,RECEIVED,PONG\n" ∈
      (on_btn_save_csv_clicked "out.csv" true
        (handleAll [Event.send "PING" 5 ⟨2024, 1, 2, 3, 4, 5, 123456⟩,
            Event.incoming [80, 79, 78, 71] ⟨2024, 1, 2, 3, 4, 6, 500000⟩]
          connectedWindow)).2 ∧
    Effect.fileWrite "out.csv"
        "Timestamp,Type,Data\n2024-01-02 03:04:05.123,Sent,PING\n2024-01-02 03:04:06.500,Received,PONG\n" ∉
      (on_btn_save_csv_clicked "out.csv" true
        (handleAll [Event.send "PING" 5 ⟨2024, 1, 2, 3, 4, 5, 123456⟩,
            Event.incoming [80, 79, 78, 71] ⟨2024, 1, 2, 3, 4, 6, 500000⟩]
          connectedWindow)).2 := by
  decide

theorem entry_row (e : Event) : join e.entry ++ "\n" = e.csvRow := by
  cases e <;> simp [Event.entry, Event.csvRow, join_three, String.append_assoc]

/-- C7, amended: in the exported file the second field of a row is `SENT` for
an entry created by a successful send and `RECEIVED` for an entry created by an
incoming chunk: after any sequence of events in a Connected window with an
empty log, the export is the header followed by the rows of the logged events,
`<time stamp>,SENT,<text>` or `<time stamp>,RECEIVED,<trimmed text>`; for
send("PING") then an incoming chunk "PONG" it is
`Timestamp,Type,Data\n<t1>,SENT,PING\n<t2>,RECEIVED,PONG\n`. -/
theorem C7_export_labels_SENT_RECEIVED (fileName : String) (hf : fileName ≠ "") :
    (∀ (es : List Event) (w : MainWindow),
      w.state = ConnectionState.Connected → w.dataLog = [] →
      es.filter Event.logged ≠ [] →
      Effect.fileWrite fileName
          ("Timestamp,Type,Data\n" ++ String.join ((es.filter Event.logged).map Event.csvRow)) ∈
        (on_btn_save_csv_clicked fileName true (handleAll es w)).2) ∧
    (∀ (returned : Int) (c1 c2 : WallClock), 0 < returned →
      Effect.fileWrite fileName
          ("Timestamp,Type,Data\n" ++ (currentDateTime c1).toString ++ ",SENT,PING\n" ++
            (currentDateTime c2).toString ++ ",RECEIVED,PONG\n") ∈
        (on_btn_save_csv_clicked fileName true
          (handleAll [Event.send "PING" returned c1, Event.incoming (toUtf8 "PONG") c2]
            connectedWindow)).2) := by
  have hfe : fileName.isEmpty = false := (isEmpty_eq_false_iff _).2 hf
  have key : ∀ (es : List Event) (w : MainWindow),
      w.state = ConnectionState.Connected → w.dataLog = [] →
      es.filter Event.logged ≠ [] →
      Effect.fileWrite fileName
          ("Timestamp,Type,Data\n" ++ String.join ((es.filter Event.logged).map Event.csvRow)) ∈
        (on_btn_save_csv_clicked fileName true (handleAll es w)).2 := by
    intro es w hw hlog hne
    have hc : w.connected = true := (state_connected_iff w).1 hw
    have hd : (handleAll es w).dataLog = (es.filter Event.logged).map Event.entry := by
      rw [handleAll_dataLog es w hc, hlog, List.nil_append]
    have hne2 : (handleAll es w).dataLog.isEmpty = false := by
      rw [hd]
      cases hfl : es.filter Event.logged with
      | nil => exact absurd hfl hne
      | cons r rs => rfl
    have htext : streamText (handleAll es w).dataLog = "Timestamp,Type,Data\n" ++
        String.join ((es.filter Event.logged).map Event.csvRow) := by
      rw [streamText_eq, hd, List.map_map]
      congr 2
      apply List.map_congr_left
      intro e _
      simp only [Function.comp, entry_row]
    simp [on_btn_save_csv_clicked, hne2, hfe, htext]
  refine ⟨key, ?_⟩
  intro returned c1 c2 hr
  have hpong : trimmed (fromUtf8 (toUtf8 "PONG")) = "PONG" := by decide
  have hfl : [Event.send "PING" returned c1, Event.incoming (toUtf8 "PONG") c2].filter
      Event.logged = [Event.send "PING" returned c1, Event.incoming (toUtf8 "PONG") c2] := by
    have he : "PONG".isEmpty = false := by decide
    simp [List.filter_cons, Event.logged, hr, hpong, he]
  have h := key [Event.send "PING" returned c1, Event.incoming (toUtf8 "PONG") c2]
    connectedWindow (by decide) (by decide) (by rw [hfl]; simp)
  rw [hfl] at h
  have hrows : "Timestamp,Type,Data\n" ++
      String.join ([Event.send "PING" returned c1, Event.incoming (toUtf8 "PONG") c2].map
        Event.csvRow) =
      "Timestamp,Type,Data\n" ++ (currentDateTime c1).toString ++ ",SENT,PING\n" ++
        (currentDateTime c2).toString ++ ",RECEIVED,PONG\n" := by
    apply String.ext
    simp [Event.csvRow, hpong]
  rw [hrows] at h
  exact h

/-- C7 amended, at the file name "out.csv" and two clock readings. -/
theorem C7_export_labels_SENT_RECEIVED_witness :
    Effect.fileWrite "out.csv"
        ("Timestamp,Type,Data\n" ++ (currentDateTime ⟨2024, 1, 2, 3, 4, 5, 123456⟩).toString ++
          ",SENT,PING\n" ++ (currentDateTime ⟨2024, 1, 2, 3, 4, 6, 500000⟩).toString ++
          ",RECEIVED,PONG\n") ∈
      (on_btn_save_csv_clicked "out.csv" true
        (handleAll [Event.send "PING" 5 ⟨2024, 1, 2, 3, 4, 5, 123456⟩,
            Event.incoming (toUtf8 "PONG") ⟨2024, 1, 2, 3, 4, 6, 500000⟩]
          connectedWindow)).2 :=
  (C7_export_labels_SENT_RECEIVED "out.csv" (by decide)).2 5
    ⟨2024, 1, 2, 3, 4, 5, 123456⟩ ⟨2024, 1, 2, 3, 4, 6, 500000⟩ (by decide)

/-! ## Trimming and `readData` -/

theorem rdropWhile_append_rtakeWhile (p : Char → Bool) (l : List Char) :
    l.rdropWhile p ++ l.rtakeWhile p = l := by
  calc l.rdropWhile p ++ l.rtakeWhile p
      = (l.reverse.takeWhile p ++ l.reverse.dropWhile p).reverse := by
        rw [List.reverse_append]
        rfl
    _ = l := by rw [List.takeWhile_append_dropWhile, List.reverse_reverse]

/-- What `trimmed` removes and what it keeps: the text is a run of whitespace,
then the trimmed text, then a run of whitespace, and the trimmed text neither
starts nor ends with whitespace. -/
theorem trimmed_spec (s : String) :
    ∃ before after : List Char,
      s.data = before ++ (trimmed s).data ++ after ∧
      (∀ c ∈ before, isSpace c = true) ∧ (∀ c ∈ after, isSpace c = true) ∧
      (∀ c, (trimmed s).data.head? = some c → isSpace c = false) ∧
      (∀ c, (trimmed s).data.getLast? = some c → isSpace c = false) := by
  refine ⟨s.data.takeWhile isSpace, (s.data.dropWhile isSpace).rtakeWhile isSpace, ?_, ?_, ?_, ?_, ?_⟩
  · simp only [trimmed, List.append_assoc]
    rw [rdropWhile_append_rtakeWhile, List.takeWhile_append_dropWhile]
  · intro c hc
    exact (List.mem_takeWhile_imp hc)
  · intro c hc
    exact List.mem_rtakeWhile_imp hc
  · intro c hc
    simp only [trimmed] at hc
    obtain ⟨t, ht⟩ := List.rdropWhile_prefix isSpace (l := s.data.dropWhile isSpace)
    have hnot := List.head?_dropWhile_not isSpace s.data
    rw [← ht] at hnot
    cases hl : (s.data.dropWhile isSpace).rdropWhile isSpace with
    | nil => rw [hl] at hc; simp at hc
    | cons x xs =>
      rw [hl] at hc hnot
      simp at hc hnot
      rw [← hc]
      simpa using hnot
  · intro c hc
    simp only [trimmed] at hc
    by_cases hl : (s.data.dropWhile isSpace).rdropWhile isSpace = []
    · rw [hl] at hc; simp at hc
    · have h := List.rdropWhile_last_not isSpace (s.data.dropWhile isSpace) hl
      rw [List.getLast?_eq_getLast _ hl] at hc
      simp at hc
      rw [← hc]
      simpa using h

/-- The trimmed text is empty exactly for a text made of whitespace only. -/
theorem trimmed_eq_empty_iff (s : String) :
    trimmed s = "" ↔ ∀ c ∈ s.data, isSpace c = true := by
  rw [String.ext_iff]
  simp only [trimmed]
  rw [List.rdropWhile_eq_nil_iff]
  constructor
  · intro h c hc
    by_contra hcs
    have hdrop : s.data.dropWhile isSpace ≠ [] := by
      intro hnil
      rw [List.dropWhile_eq_nil_iff] at hnil
      exact hcs (hnil c hc)
    have h2 := List.head_dropWhile_not isSpace s.data hdrop
    have h3 := h _ (List.head_mem hdrop)
    rw [h3] at h2
    exact Bool.noConfusion h2
  · intro h c hc
    exact h c ((List.dropWhile_sublist isSpace).subset hc)

/-! ## UTF-8: decoding what was encoded -/

theorem char_toNat_valid (c : Char) :
    c.toNat < 0xD800 ∨ (0xDFFF < c.toNat ∧ c.toNat < 0x110000) := c.valid

theorem checkedChar_of_valid (minUc v : Nat) (hmin : minUc ≤ v)
    (hv : v < 0xD800 ∨ (0xDFFF < v ∧ v < 0x110000)) :
    checkedChar minUc v = some (Char.ofNat v) := by
  unfold checkedChar
  rw [if_neg (by omega), if_neg (by omega), if_neg (by omega)]

theorem decodeFrom_one (b : Nat) (rest : List Nat) (hb : b < 0x80) :
    decodeFrom 0 (b :: rest) = Char.ofNat b :: decodeFrom 0 rest := by
  simp [decodeFrom, decodeOne, hb]

theorem decodeFrom_two (b b1 : Nat) (rest : List Nat) (c : Char)
    (hb : 0xC2 ≤ b ∧ b < 0xE0) (h1 : 0x80 ≤ b1 ∧ b1 < 0xC0)
    (hc : checkedChar 0x80 (b % 32 * 64 + b1 % 64) = some c) :
    decodeFrom 0 (b :: b1 :: rest) = c :: decodeFrom 0 rest := by
  have e : decodeOne b (b1 :: rest) = some (c, 1) := by
    unfold decodeOne
    rw [if_neg (by omega), if_neg (by omega), if_pos (by omega)]
    simp [isContinuationByte, h1.1, h1.2, hc]
  simp [decodeFrom, e]

theorem decodeFrom_three (b b1 b2 : Nat) (rest : List Nat) (c : Char)
    (hb : 0xE0 ≤ b ∧ b < 0xF0) (h1 : 0x80 ≤ b1 ∧ b1 < 0xC0) (h2 : 0x80 ≤ b2 ∧ b2 < 0xC0)
    (hc : checkedChar 0x800 ((b % 16 * 64 + b1 % 64) * 64 + b2 % 64) = some c) :
    decodeFrom 0 (b :: b1 :: b2 :: rest) = c :: decodeFrom 0 rest := by
  have e : decodeOne b (b1 :: b2 :: rest) = some (c, 2) := by
    unfold decodeOne
    rw [if_neg (by omega), if_neg (by omega), if_neg (by omega), if_pos (by omega)]
    simp [isContinuationByte, h1.1, h1.2, h2.1, h2.2, hc]
  simp [decodeFrom, e]

theorem decodeFrom_four (b b1 b2 b3 : Nat) (rest : List Nat) (c : Char)
    (hb : 0xF0 ≤ b ∧ b < 0xF5) (h1 : 0x80 ≤ b1 ∧ b1 < 0xC0) (h2 : 0x80 ≤ b2 ∧ b2 < 0xC0)
    (h3 : 0x80 ≤ b3 ∧ b3 < 0xC0)
    (hc : checkedChar 0x10000 (((b % 8 * 64 + b1 % 64) * 64 + b2 % 64) * 64 + b3 % 64) = some c) :
    decodeFrom 0 (b :: b1 :: b2 :: b3 :: rest) = c :: decodeFrom 0 rest := by
  have e : decodeOne b (b1 :: b2 :: b3 :: rest) = some (c, 3) := by
    unfold decodeOne
    rw [if_neg (by omega), if_neg (by omega), if_neg (by omega), if_neg (by omega),
      if_pos (by omega)]
    simp [isContinuationByte, h1.1, h1.2, h2.1, h2.2, h3.1, h3.2, hc]
  simp [decodeFrom, e]

/-- Decoding the encoding of one character gives the character back and
resumes right after its bytes. -/
theorem decodeFrom_encode (c : Char) (rest : List Nat) :
    decodeFrom 0 (utf8EncodeChar c ++ rest) = c :: decodeFrom 0 rest := by
  have hv := char_toNat_valid c
  have hc : Char.ofNat c.toNat = c := Char.ofNat_toNat c
  unfold utf8EncodeChar
  simp only
  generalize c.toNat = v at hv hc
  by_cases h1 : v < 0x80
  · rw [if_pos h1, List.singleton_append, decodeFrom_one v rest h1, hc]
  · rw [if_neg h1]
    by_cases h2 : v < 0x800
    · rw [if_pos h2]
      have e : (0xC0 + v / 64) % 32 * 64 + (0x80 + v % 64) % 64 = v := by omega
      have hk := checkedChar_of_valid 0x80 v (by omega) hv
      rw [hc] at hk
      exact decodeFrom_two _ _ rest c (by omega) (by omega) (by rw [e]; exact hk)
    · rw [if_neg h2]
      by_cases h3 : v < 0x10000
      · rw [if_pos h3]
        have e : ((0xE0 + v / 4096) % 16 * 64 + (0x80 + v / 64 % 64) % 64) * 64 +
            (0x80 + v % 64) % 64 = v := by omega
        have hk := checkedChar_of_valid 0x800 v (by omega) hv
        rw [hc] at hk
        exact decodeFrom_three _ _ _ rest c (by omega) (by omega) (by omega) (by rw [e]; exact hk)
      · rw [if_neg h3]
        have e : (((0xF0 + v / 262144) % 8 * 64 + (0x80 + v / 4096 % 64) % 64) * 64 +
            (0x80 + v / 64 % 64) % 64) * 64 + (0x80 + v % 64) % 64 = v := by omega
        have hk := checkedChar_of_valid 0x10000 v (by omega) hv
        rw [hc] at hk
        exact decodeFrom_four _ _ _ _ rest c (by omega) (by omega) (by omega) (by omega)
          (by rw [e]; exact hk)

theorem decodeFrom_toUtf8 (cs : List Char) :
    decodeFrom 0 (cs.flatMap utf8EncodeChar) = cs := by
  induction cs with
  | nil => rfl
  | cons c cs ih => rw [List.flatMap_cons, decodeFrom_encode, ih]

/-- The first byte of the encoding of a character tells the byte order mark
apart: only U+FEFF is encoded as EF BB BF. -/
theorem encode_starts_with_mark (c : Char) (cs : List Char) (rest : List Nat)
    (h : (c :: cs).flatMap utf8EncodeChar = 0xEF :: 0xBB :: 0xBF :: rest) :
    c.toNat = 0xFEFF := by
  have hv := char_toNat_valid c
  rw [List.flatMap_cons] at h
  unfold utf8EncodeChar at h
  simp only at h
  generalize c.toNat = v at hv h
  by_cases h1 : v < 0x80
  · rw [if_pos h1] at h
    simp at h
    omega
  · rw [if_neg h1] at h
    by_cases h2 : v < 0x800
    · rw [if_pos h2] at h
      simp at h
      omega
    · rw [if_neg h2] at h
      by_cases h3 : v < 0x10000
      · rw [if_pos h3] at h
        simp at h
        omega
      · rw [if_neg h3] at h
        simp at h
        omega

/-- Encoding a text and decoding the bytes gives the text back, unless the
text starts with the byte order mark U+FEFF, which the decoder drops. -/
theorem fromUtf8_toUtf8 (s : String) (h : s.data.head? ≠ some (Char.ofNat 0xFEFF)) :
    fromUtf8 (toUtf8 s) = s := by
  have hd : decodeFrom 0 (toUtf8 s) = s.data := decodeFrom_toUtf8 s.data
  unfold fromUtf8
  split
  · rename_i rest heq
    exfalso
    cases hs : s.data with
    | nil =>
      rw [toUtf8, hs] at heq
      simp at heq
    | cons c cs =>
      rw [toUtf8, hs] at heq
      have hcv := encode_starts_with_mark c cs rest heq
      apply h
      rw [hs]
      simp only [List.head?_cons, Option.some.injEq]
      rw [← hcv, Char.ofNat_toNat]
  · rw [hd]

/-- C8: for every chunk of bytes `readData` takes the UTF-8 decoding of the
chunk with the whitespace at both ends trimmed off (the decoded text is a run
of whitespace, the trimmed text, a run of whitespace; the trimmed text neither
starts nor ends with whitespace, what lies between is kept as it is); if the
trimmed text is empty, which is the case exactly when the decoded text is empty
or all whitespace, the window and its log are unchanged; otherwise exactly one
entry of type RECEIVED whose data is the trimmed text is appended to the log.
The decoder gives back every text that was encoded as UTF-8 (a leading byte
order mark apart). -/
theorem C8_readData_logs_trimmed_chunk (data : List Nat) (clock : WallClock) (w : MainWindow) :
    (trimmed (fromUtf8 data) = "" → readData data clock w = (w, [])) ∧
    (trimmed (fromUtf8 data) ≠ "" →
      (readData data clock w).1.dataLog =
          w.dataLog ++ [[(currentDateTime clock).toString, "RECEIVED", trimmed (fromUtf8 data)]] ∧
        (readData data clock w).1.connected = w.connected ∧
        (readData data clock w).1.serial = w.serial ∧
        (readData data clock w).2 = []) ∧
    (trimmed (fromUtf8 data) = "" ↔ ∀ c ∈ (fromUtf8 data).data, isSpace c = true) ∧
    (∃ before after : List Char,
      (fromUtf8 data).data = before ++ (trimmed (fromUtf8 data)).data ++ after ∧
      (∀ c ∈ before, isSpace c = true) ∧ (∀ c ∈ after, isSpace c = true) ∧
      (∀ c, (trimmed (fromUtf8 data)).data.head? = some c → isSpace c = false) ∧
      (∀ c, (trimmed (fromUtf8 data)).data.getLast? = some c → isSpace c = false)) ∧
    (∀ text : String, text.data.head? ≠ some (Char.ofNat 0xFEFF) →
      fromUtf8 (toUtf8 text) = text) := by
  refine ⟨readData_ignored data clock w, ?_, trimmed_eq_empty_iff _, trimmed_spec _,
    fromUtf8_toUtf8⟩
  intro h
  rw [readData_logged data clock w h]
  exact ⟨rfl, rfl, rfl, rfl⟩

/-- C8 on the chunk `  PONG  1 \r\n` and on a chunk of whitespace only. -/
theorem C8_readData_logs_trimmed_chunk_witness :
    (readData [32, 32, 80, 79, 78, 71, 32, 32, 49, 32, 13, 10]
        ⟨2024, 1, 2, 3, 4, 6, 500000⟩ connectedWindow).1.dataLog =
      connectedWindow.dataLog ++ [["2024-01-02 03:04:06.500", "RECEIVED", "PONG  1"]] ∧
    readData [32, 13, 10] ⟨2024, 1, 2, 3, 4, 6, 500000⟩ connectedWindow = (connectedWindow, []) :=
  ⟨((C8_readData_logs_trimmed_chunk [32, 32, 80, 79, 78, 71, 32, 32, 49, 32, 13, 10]
      ⟨2024, 1, 2, 3, 4, 6, 500000⟩ connectedWindow).2.1 (by decide)).1,
   (C8_readData_logs_trimmed_chunk [32, 13, 10]
      ⟨2024, 1, 2, 3, 4, 6, 500000⟩ connectedWindow).1 (by decide)⟩

/-! ## Time stamps -/

theorem digitChar_inj (a b : Nat) (h : digitChar a = digitChar b) : a % 10 = b % 10 := by
  have key : ∀ x y : Fin 10, Char.ofNat (48 + x.val) = Char.ofNat (48 + y.val) → x = y := by
    decide
  have ha : a % 10 < 10 := Nat.mod_lt _ (by decide)
  have hb : b % 10 < 10 := Nat.mod_lt _ (by decide)
  have := key ⟨a % 10, ha⟩ ⟨b % 10, hb⟩ h
  exact congrArg Fin.val this

theorem zeroPad_two (n : Nat) (h : n < 100) :
    zeroPad 2 n = [digitChar (n / 10), digitChar n] := by
  have h1 : n / 10 < 10 := by omega
  have h2 : n / 10 / 10 = 0 := by omega
  simp [zeroPad, h, h1, h2]

theorem zeroPad_three (n : Nat) (h : n < 1000) :
    zeroPad 3 n = [digitChar (n / 100), digitChar (n / 10), digitChar n] := by
  have h1 : n / 10 < 100 := by omega
  have h2 : n / 10 / 10 = n / 100 := by omega
  have h3 : zeroPad 3 n = zeroPad 2 (n / 10) ++ [digitChar n] := by
    simp [zeroPad, h]
  rw [h3, zeroPad_two _ h1, h2]
  rfl

theorem zeroPad_four (n : Nat) (h : n < 10000) :
    zeroPad 4 n =
      [digitChar (n / 1000), digitChar (n / 100), digitChar (n / 10), digitChar n] := by
  have h1 : n / 10 < 1000 := by omega
  have h2 : n / 10 / 100 = n / 1000 := by omega
  have h3 : n / 10 / 10 = n / 100 := by omega
  have h4 : zeroPad 4 n = zeroPad 3 (n / 10) ++ [digitChar n] := by
    simp [zeroPad, h]
  rw [h4, zeroPad_three _ h1, h2, h3]
  rfl

/-- The text of a date and time, field by field, when every field fits its width. -/
theorem toString_digits (t : QDateTime) (hy : t.year < 10000) (hM : t.month < 100)
    (hd : t.day < 100) (hh : t.hour < 100) (hm : t.minute < 100) (hs : t.second < 100)
    (hz : t.msec < 1000) :
    t.toString.data =
      [digitChar (t.year / 1000), digitChar (t.year / 100), digitChar (t.year / 10),
       digitChar t.year, '-', digitChar (t.month / 10), digitChar t.month, '-',
       digitChar (t.day / 10), digitChar t.day, ' ',
       digitChar (t.hour / 10), digitChar t.hour, ':',
       digitChar (t.minute / 10), digitChar t.minute, ':',
       digitChar (t.second / 10), digitChar t.second, '.',
       digitChar (t.msec / 100), digitChar (t.msec / 10), digitChar t.msec] := by
  unfold QDateTime.toString
  rw [zeroPad_four _ hy, zeroPad_two _ hM, zeroPad_two _ hd, zeroPad_two _ hh, zeroPad_two _ hm,
    zeroPad_two _ hs, zeroPad_three _ hz]
  rfl

theorem two_digits_inj (a b : Nat) (ha : a < 100) (hb : b < 100)
    (h1 : digitChar (a / 10) = digitChar (b / 10)) (h0 : digitChar a = digitChar b) : a = b := by
  have e1 := digitChar_inj _ _ h1
  have e0 := digitChar_inj _ _ h0
  omega

theorem three_digits_inj (a b : Nat) (ha : a < 1000) (hb : b < 1000)
    (h2 : digitChar (a / 100) = digitChar (b / 100))
    (h1 : digitChar (a / 10) = digitChar (b / 10)) (h0 : digitChar a = digitChar b) : a = b := by
  have e2 := digitChar_inj _ _ h2
  have e1 := digitChar_inj _ _ h1
  have e0 := digitChar_inj _ _ h0
  omega

theorem four_digits_inj (a b : Nat) (ha : a < 10000) (hb : b < 10000)
    (h3 : digitChar (a / 1000) = digitChar (b / 1000))
    (h2 : digitChar (a / 100) = digitChar (b / 100))
    (h1 : digitChar (a / 10) = digitChar (b / 10)) (h0 : digitChar a = digitChar b) : a = b := by
  have e3 := digitChar_inj _ _ h3
  have e2 := digitChar_inj _ _ h2
  have e1 := digitChar_inj _ _ h1
  have e0 := digitChar_inj _ _ h0
  omega

/-- Two dates and times whose fields fit their widths and whose texts are equal
are equal. -/
theorem toString_inj (s t : QDateTime)
    (hs : s.year < 10000 ∧ s.month < 100 ∧ s.day < 100 ∧ s.hour < 100 ∧ s.minute < 100 ∧
      s.second < 100 ∧ s.msec < 1000)
    (ht : t.year < 10000 ∧ t.month < 100 ∧ t.day < 100 ∧ t.hour < 100 ∧ t.minute < 100 ∧
      t.second < 100 ∧ t.msec < 1000)
    (h : s.toString = t.toString) : s = t := by
  obtain ⟨sy, sM, sd, sh, sm, ss, sz⟩ := hs
  obtain ⟨ty, tM, td, th, tm, ts, tz⟩ := ht
  have hdata := congrArg String.data h
  rw [toString_digits s sy sM sd sh sm ss sz, toString_digits t ty tM td th tm ts tz] at hdata
  simp only [List.cons.injEq, and_true, true_and] at hdata
  obtain ⟨y3, y2, y1, y0, M1, M0, d1, d0, h1, h0, m1, m0, s1, s0, z2, z1, z0⟩ := hdata
  have ey := four_digits_inj _ _ sy ty y3 y2 y1 y0
  have eM := two_digits_inj _ _ sM tM M1 M0
  have ed := two_digits_inj _ _ sd td d1 d0
  have eh := two_digits_inj _ _ sh th h1 h0
  have em := two_digits_inj _ _ sm tm m1 m0
  have es := two_digits_inj _ _ ss ts s1 s0
  have ez := three_digits_inj _ _ sz tz z2 z1 z0
  cases s
  cases t
  simp only at ey eM ed eh em es ez
  simp [ey, eM, ed, eh, em, es, ez]

theorem valid_bounds (c : WallClock) (h : c.valid = true) :
    c.year < 10000 ∧ c.month < 100 ∧ c.day < 100 ∧ c.hour < 100 ∧ c.minute < 100 ∧
      c.second < 100 ∧ c.usec < 1000000 := by
  simp only [WallClock.valid, Bool.and_eq_true, decide_eq_true_eq] at h
  omega

theorem currentDateTime_bounds (c : WallClock) (h : c.valid = true) :
    (currentDateTime c).year < 10000 ∧ (currentDateTime c).month < 100 ∧
      (currentDateTime c).day < 100 ∧ (currentDateTime c).hour < 100 ∧
      (currentDateTime c).minute < 100 ∧ (currentDateTime c).second < 100 ∧
      (currentDateTime c).msec < 1000 := by
  have hb := valid_bounds c h
  simp only [currentDateTime]
  omega

/-- C9, as stated, fails: two readings of the clock on the same day, one
microsecond apart, are stored by `logData` with the same time stamp. -/
theorem C9_counterexample :
    WallClock.valid ⟨2024, 1, 2, 3, 4, 5, 123000⟩ = true ∧
    WallClock.valid ⟨2024, 1, 2, 3, 4, 5, 123001⟩ = true ∧
    WallClock.sameDay ⟨2024, 1, 2, 3, 4, 5, 123000⟩ ⟨2024, 1, 2, 3, 4, 5, 123001⟩ = true ∧
    WallClock.usecOfDay ⟨2024, 1, 2, 3, 4, 5, 123001⟩ =
      WallClock.usecOfDay ⟨2024, 1, 2, 3, 4, 5, 123000⟩ + 1 ∧
    (logData ⟨2024, 1, 2, 3, 4, 5, 123000⟩ "SENT" "PING" connectedWindow).dataLog =
      [["2024-01-02 03:04:05.123", "SENT", "PING"]] ∧
    (logData ⟨2024, 1, 2, 3, 4, 5, 123001⟩ "SENT" "PING" connectedWindow).dataLog =
      [["2024-01-02 03:04:05.123", "SENT", "PING"]] := by
  decide

/-- C9, amended: the time stamp that `logData` stores has millisecond
resolution. The entry appended at a clock reading carries the text of the
reading cut to whole milliseconds; for two readings (dates of the years 0 to
9999) the stored time stamps are equal exactly when the readings agree on the
date and on the time of day in whole milliseconds, so readings on different
days, or on the same day at least one millisecond apart, get different time
stamps, and readings within the same millisecond get the same one. -/
theorem C9_timestamp_millisecond_resolution (a b : WallClock)
    (ha : a.valid = true) (hb : b.valid = true) :
    (∀ (type data : String) (w : MainWindow),
      (logData a type data w).dataLog =
        w.dataLog ++ [[(currentDateTime a).toString, type, data]]) ∧
    ((currentDateTime a).toString = (currentDateTime b).toString ↔
      currentDateTime a = currentDateTime b) ∧
    (a.sameDay b = false → (currentDateTime a).toString ≠ (currentDateTime b).toString) ∧
    (a.sameDay b = true →
      (a.usecOfDay + 1000 ≤ b.usecOfDay ∨ b.usecOfDay + 1000 ≤ a.usecOfDay) →
      (currentDateTime a).toString ≠ (currentDateTime b).toString) ∧
    (a.sameDay b = true → a.usecOfDay / 1000 = b.usecOfDay / 1000 →
      (currentDateTime a).toString = (currentDateTime b).toString) := by
  have hiff : (currentDateTime a).toString = (currentDateTime b).toString ↔
      currentDateTime a = currentDateTime b :=
    ⟨toString_inj _ _ (currentDateTime_bounds a ha) (currentDateTime_bounds b hb),
     fun h => by rw [h]⟩
  have hva := ha
  have hvb := hb
  simp only [WallClock.valid, Bool.and_eq_true, decide_eq_true_eq] at hva hvb
  refine ⟨fun _ _ _ => rfl, hiff, ?_, ?_, ?_⟩
  · intro hday heq
    have h := hiff.1 heq
    simp only [currentDateTime, QDateTime.mk.injEq] at h
    have : a.sameDay b = true := by
      simp [WallClock.sameDay, h.1, h.2.1, h.2.2.1]
    rw [this] at hday
    exact Bool.noConfusion hday
  · intro _ hfar heq
    have h := hiff.1 heq
    simp only [currentDateTime, QDateTime.mk.injEq] at h
    simp only [WallClock.usecOfDay] at hfar
    obtain ⟨_, _, _, hh, hm, hs, hz⟩ := h
    rw [hh, hm, hs] at hfar
    omega
  · intro hday hms
    rw [hiff]
    simp only [WallClock.sameDay, Bool.and_eq_true, decide_eq_true_eq] at hday
    simp only [WallClock.usecOfDay] at hms
    simp only [currentDateTime, QDateTime.mk.injEq]
    refine ⟨hday.1.1, hday.1.2, hday.2, ?_, ?_, ?_, ?_⟩ <;> omega

/-- C9 amended, at two readings one millisecond apart and two readings within
the same millisecond. -/
theorem C9_timestamp_millisecond_resolution_witness :
    (currentDateTime ⟨2024, 1, 2, 3, 4, 5, 123000⟩).toString ≠
      (currentDateTime ⟨2024, 1, 2, 3, 4, 5, 124000⟩).toString ∧
    (currentDateTime ⟨2024, 1, 2, 3, 4, 5, 123000⟩).toString =
      (currentDateTime ⟨2024, 1, 2, 3, 4, 5, 123999⟩).toString :=
  ⟨(C9_timestamp_millisecond_resolution ⟨2024, 1, 2, 3, 4, 5, 123000⟩
      ⟨2024, 1, 2, 3, 4, 5, 124000⟩ (by decide) (by decide)).2.2.2.1 (by decide)
      (Or.inl (by decide)),
   (C9_timestamp_millisecond_resolution ⟨2024, 1, 2, 3, 4, 5, 123000⟩
      ⟨2024, 1, 2, 3, 4, 5, 123999⟩ (by decide) (by decide)).2.2.2.2 (by decide) (by decide)⟩

end NeoSerial
